import Mathlib

/-!
Verification of the data layer of the bucket-list application
(`app/models.py`): a shallow embedding of the four ORM entities
(User, Category, Bucket, Activity), their persistence helpers and the
authentication primitives, together with proofs of the documented
contracts.

External collaborators (the bcrypt hashing primitive and the
itsdangerous timed token serializer) are embedded as idealized but
executable functions; everything else is translated directly from the
source file.
-/

namespace BucketList

/-! ## Credentials (flask_bcrypt) -/

/-- A value stored in the `_password` column.  `bcrypt salt pw` is the
opaque salted one-way hash that `flask_bcrypt.generate_password_hash`
produces for plaintext `pw` with the given salt; `plaintext s` is a raw
string written to the column directly, bypassing the hashing setter. -/
inductive Credential where
  | plaintext (s : String)
  | bcrypt (salt : Nat) (pw : String)
deriving DecidableEq, Repr

/-- `flask_bcrypt.generate_password_hash`, idealized: the produced hash
is modelled as an opaque constructor applied to the salt and the hashed
password (bcrypt is treated as collision-free). -/
def generate_password_hash (salt : Nat) (password : String) : Credential :=
  Credential.bcrypt salt password

/-- `flask_bcrypt.check_password_hash`, idealized consistently with
`generate_password_hash`: a bcrypt hash verifies exactly the password it
was produced from, and a raw plaintext column value verifies nothing. -/
def check_password_hash (stored : Credential) (candidate : String) : Bool :=
  match stored with
  | Credential.bcrypt _ pw => pw == candidate
  | Credential.plaintext _ => false

/-! ## Timed signed tokens (itsdangerous) -/

/-- Default expiry (seconds) of `TimedJSONWebSignatureSerializer`. -/
def DEFAULT_EXPIRES_IN : Nat := 3600

/-- The signature computed by the serializer over the payload
(`{id: ...}`) and the embedded expiry timestamp, keyed by the
process-wide secret.  A concrete stand-in for the HMAC. -/
def mac (secret : Nat) (payloadId : Nat) (exp : Nat) : Nat :=
  (secret + 1) * (2 * payloadId + 3) * (5 * exp + 7)

/-- A token produced by `TimedJSONWebSignatureSerializer.dumps`:
the payload `{id: payloadId}`, the expiry timestamp and the signature. -/
structure Token where
  payloadId : Nat
  exp : Nat
  sig : Nat
deriving DecidableEq, Repr

/-! ## Rows

Each structure mirrors the columns declared on the corresponding
`db.Model` class.  Timestamps are seconds; nullable foreign keys are
`Option Nat`. -/

/-- `datetime.datetime.now()` as evaluated ONCE, when `app/models.py`
is imported: the `default=datetime.datetime.now()` arguments of the
column declarations call `now()` at class-definition time, so every row
created by this process shares this single value. -/
def MODULE_LOAD_TIME : Nat := 1500000000

/-- Columns of the `user` table. -/
structure User where
  id : Nat
  email : String
  _password : Credential
  first_name : Option String
  last_name : Option String
  date_joined : Nat
  is_active : Bool
  last_login : Option Nat
deriving DecidableEq, Repr

/-- Columns of the `bucket` table (the derived `search_vector` column is
a function of `bucket_name` and `description` and is not carried). -/
structure Bucket where
  id : Nat
  bucket_name : String
  category_id : Option Nat
  created : Nat
  updated : Nat
  user_id : Option Nat
  description : String
deriving DecidableEq, Repr

/-- Columns of the `category` table. -/
structure Category where
  id : Nat
  category_name : String
deriving DecidableEq, Repr

/-- Columns of the `activity` table (the derived `search_vector` column
is a function of `description` and is not carried). -/
structure Activity where
  id : Nat
  description : Option String
  bucket_id : Option Nat
  user_id : Option Nat
  created : Nat
  updated : Nat
deriving DecidableEq, Repr

/-- The backing store: the four tables plus the autoincrement counters
of their surrogate keys. -/
structure DBState where
  users : List User
  buckets : List Bucket
  categories : List Category
  activities : List Activity
  nextUserId : Nat
  nextBucketId : Nat
  nextCategoryId : Nat
  nextActivityId : Nat
deriving DecidableEq, Repr

/-- The empty database. -/
def DBState.empty : DBState :=
  { users := [], buckets := [], categories := [], activities := []
    nextUserId := 1, nextBucketId := 1, nextCategoryId := 1, nextActivityId := 1 }

/-! ## User operations -/

namespace User

/-- The `password` hybrid-property getter: returns `self._password`. -/
def password (u : User) : Credential :=
  u._password

/-- The `password` setter:
`self._password = hashing.generate_password_hash(password)`.
The salt bcrypt draws internally is passed explicitly. -/
def setPassword (u : User) (salt : Nat) (p : String) : User :=
  { u with _password := generate_password_hash salt p }

/-- `check_password`:
`return hashing.check_password_hash(self.password, password)`. -/
def check_password (u : User) (p : String) : Bool :=
  check_password_hash u.password p

/-- `User.exists` (Lean reserves the name `exists`, hence the trailing
underscore): `User.query.filter_by(email=email).first()`, then
`True if user else False`. -/
def exists_ (s : DBState) (email : String) : Bool :=
  match s.users.find? (fun u => u.email == email) with
  | some _ => true
  | none => false

/-- `User.save` on a transient instance: `db.session.add(self)` followed
by `db.session.commit()` inserts the row, assigning the autoincrement
id; the method then returns
`User.query.filter_by(email=self.email).first()`. -/
def save (u : User) (s : DBState) : DBState × Option User :=
  let row := { u with id := s.nextUserId }
  let s' := { s with users := s.users ++ [row], nextUserId := s.nextUserId + 1 }
  (s', s'.users.find? (fun v => v.email == u.email))

/-- `User.get_id`: `return self.user_id`.  The `User` class declares no
column, relationship or method named `user_id`, so the attribute lookup
is over the names the class does define. -/
def attrNames : List String :=
  ["id", "email", "_password", "password", "first_name", "last_name",
   "date_joined", "is_active", "last_login", "buckets", "activities",
   "check_password", "exists", "save", "drop_all", "get_id",
   "generate_token", "verify_token", "delete", "get_or_create", "query"]

/-- Python attribute access on a `User` instance: defined names resolve,
anything else raises `AttributeError`. -/
def getattr (name : String) : Except String Unit :=
  if attrNames.contains name then Except.ok ()
  else Except.error ("AttributeError: " ++ name)

/-- `User.get_id`: `return self.user_id` — an attribute lookup of the
name "user_id" on the instance. -/
def get_id : Except String Unit :=
  getattr "user_id"

/-- `User.generate_token`: signs `dict(id=self.id)` with the
process-wide secret; the serializer stamps expiry `now + expires_in`
(library default `DEFAULT_EXPIRES_IN`). -/
def generate_token (secret : Nat) (now : Nat) (u : User) : Token :=
  { payloadId := u.id
    exp := now + DEFAULT_EXPIRES_IN
    sig := mac secret u.id (now + DEFAULT_EXPIRES_IN) }

/-- `User.verify_token`: `key.loads(token)` raises `BadSignature` when
the signature does not match and `SignatureExpired` when the embedded
expiry has passed; both are caught and return `None`.  Otherwise the
method returns `cls.query.filter_by(id=data['id']).first()`. -/
def verify_token (secret : Nat) (now : Nat) (s : DBState) (t : Token) :
    Option User :=
  if t.sig ≠ mac secret t.payloadId t.exp then none
  else if t.exp < now then none
  else s.users.find? (fun u => u.id == t.payloadId)

/-- The bulk delete `db.session.query(cls).delete()` followed by
`db.session.commit()`: clears the `user` table, or fails with the error
the backing store raised. -/
def bulkDeleteUsers (s : DBState) (commitFails : Bool) :
    Except String DBState :=
  if commitFails then Except.error "commit failed"
  else Except.ok { s with users := [] }

/-- `User.drop_all`: tries the bulk delete and commit; `except
Exception: db.session.rollback()` restores the pre-call state and
swallows the error (the method returns normally in both cases). -/
def drop_all (s : DBState) (commitFails : Bool) : DBState :=
  match bulkDeleteUsers s commitFails with
  | Except.ok s' => s'
  | Except.error _ => s

/-- `User.delete(email)`: looks the user up by email and calls
`db.session.delete(user)` + commit.  When no row matches, `user` is
`None` and deleting it raises (modelled as `none`).  Deleting the user
cascades (`cascade="delete, delete-orphan"`) to `user.buckets` and
`user.activities`, and deleting each such bucket cascades in turn to
`bucket.activities`. -/
def delete (s : DBState) (email : String) : Option DBState :=
  match s.users.find? (fun u => u.email == email) with
  | none => none
  | some u =>
    some { s with
      users := s.users.filter (fun v => v.id != u.id)
      buckets := s.buckets.filter (fun b => b.user_id != some u.id)
      activities := s.activities.filter
        (fun a => a.user_id != some u.id &&
          !(((s.buckets.filter (fun b => b.user_id == some u.id)).map (·.id)).any
            (fun i => a.bucket_id == some i))) }

end User

/-! ## Serialized values -/

/-- A value appearing in the plain field mapping a `serialize` property
returns. -/
inductive Value where
  | nat (n : Nat)
  | str (s : String)
  | time (t : Nat)
  | none
deriving DecidableEq, Repr

/-! ## Bucket operations -/

namespace Bucket

/-- Attribute names the `Bucket` class defines (columns, relationships
and methods); `bucket_id` is not among them. -/
def attrNames : List String :=
  ["id", "bucket_name", "category_id", "created", "updated", "user_id",
   "description", "activities", "search_vector", "category", "user",
   "get_id", "save", "delete", "serialize", "exists", "query"]

/-- Python attribute access on a `Bucket` instance. -/
def getattr (name : String) : Except String Unit :=
  if attrNames.contains name then Except.ok ()
  else Except.error ("AttributeError: " ++ name)

/-- `Bucket.get_id`: `return self.bucket_id` — an attribute lookup of
the name "bucket_id" on the instance. -/
def get_id : Except String Unit :=
  getattr "bucket_id"

/-- `Bucket.exists` (Lean reserves `exists`):
`Bucket.query.filter_by(id=bucket_id, user_id=user_id).first()`, then
`True if bucket else False`. -/
def exists_ (s : DBState) (bucket_id : Nat) (user_id : Nat) : Bool :=
  match s.buckets.find? (fun b => b.id == bucket_id && b.user_id == some user_id) with
  | some _ => true
  | none => false

/-- `Bucket.serialize`: `self.user` resolves the `user_id` foreign key
through the backref (when the key dangles the attribute is `None` and
`self.user.email` raises, modelled as `none`); the property builds
`dict(id=..., bucket_name=..., created=..., user=self.user.email,
description=..., updated=...)` in that insertion order. -/
def serialize (s : DBState) (b : Bucket) : Option (List (String × Value)) :=
  match s.users.find? (fun u => some u.id == b.user_id) with
  | Option.none => Option.none
  | some owner => some
      [("id", Value.nat b.id), ("bucket_name", Value.str b.bucket_name),
       ("created", Value.time b.created), ("user", Value.str owner.email),
       ("description", Value.str b.description), ("updated", Value.time b.updated)]

end Bucket

/-! ## Category operations -/

namespace Category

/-- `Category.save`: `db.session.add(self)` + `commit()` inserts the
row, assigning the autoincrement id, then returns
`Category.query.filter_by(id=self.id).first()`. -/
def save (name : String) (s : DBState) : DBState × Option Category :=
  let row : Category := { id := s.nextCategoryId, category_name := name }
  let s' := { s with categories := s.categories ++ [row]
                     nextCategoryId := s.nextCategoryId + 1 }
  (s', s'.categories.find? (fun d => d.id == row.id))

/-- `Category.exists` (Lean reserves `exists`):
`Category.query.filter_by(category_name=category_name).first()`; returns
it when found, otherwise `Category(category_name=category_name).save()`
— creating and persisting a new row as a side effect. -/
def exists_ (s : DBState) (category_name : String) : DBState × Option Category :=
  match s.categories.find? (fun c => c.category_name == category_name) with
  | some c => (s, some c)
  | none => save category_name s

end Category

/-! ## Activity operations -/

namespace Activity

/-- `Activity.exists` (Lean reserves `exists`):
`Activity.query.filter_by(bucket_id=bucket_id, user_id=user_id,
id=activity_id).first()`, then `True if activity else False`. -/
def exists_ (s : DBState) (bucket_id : Nat) (user_id : Nat)
    (activity_id : Nat) : Bool :=
  match s.activities.find? (fun a =>
      a.bucket_id == some bucket_id && a.user_id == some user_id
        && a.id == activity_id) with
  | some _ => true
  | none => false

/-- `Activity.serialize`: `dict(activity_id=self.id, description=...,
user=self.user.email, created=..., bucket_id=self.bucket.id,
updated=...)`; dangling `user_id` or `bucket_id` makes the backref
`None` and the attribute access raise, modelled as `none`. -/
def serialize (s : DBState) (a : Activity) : Option (List (String × Value)) :=
  match s.users.find? (fun u => some u.id == a.user_id) with
  | Option.none => Option.none
  | some owner =>
    match s.buckets.find? (fun b => some b.id == a.bucket_id) with
    | Option.none => Option.none
    | some bucket => some
        [("activity_id", Value.nat a.id),
         ("description", match a.description with
                         | some d => Value.str d
                         | Option.none => Value.none),
         ("user", Value.str owner.email), ("created", Value.time a.created),
         ("bucket_id", Value.nat bucket.id), ("updated", Value.time a.updated)]

end Activity

/-! ## Instance construction -/

set_option linter.unusedVariables false in
/-- Constructing `User(email=..., password=...)` while the wall clock
reads `now`: the `password` keyword goes through the hashing setter, and
the `date_joined` column default was fixed once at import time
(`default=datetime.datetime.now()` called `now()` when the class body
ran), so the construction time `now` does not flow into the row.  The
surrogate id is assigned later, on insert. -/
def User.newAt (now : Nat) (email : String) (salt : Nat) (password : String) :
    User :=
  { id := 0
    email := email
    _password := generate_password_hash salt password
    first_name := none
    last_name := none
    date_joined := MODULE_LOAD_TIME
    is_active := true
    last_login := none }

/-! ## Sample rows used to instantiate the contracts -/

/-- A concrete stored user. -/
def sampleUser : User :=
  { id := 2, email := "a@x.com", _password := Credential.bcrypt 5 "pw1"
    first_name := none, last_name := none, date_joined := MODULE_LOAD_TIME
    is_active := true, last_login := none }

/-- A second concrete stored user, a different owner. -/
def otherUser : User :=
  { id := 9, email := "b@x.com", _password := Credential.bcrypt 6 "pw9"
    first_name := none, last_name := none, date_joined := MODULE_LOAD_TIME
    is_active := true, last_login := none }

/-- A concrete bucket owned by `sampleUser`. -/
def sampleBucket : Bucket :=
  { id := 3, bucket_name := "Travel", category_id := none
    created := MODULE_LOAD_TIME, updated := MODULE_LOAD_TIME
    user_id := some 2, description := "See the world" }

/-- A concrete bucket owned by `otherUser`. -/
def otherBucket : Bucket :=
  { id := 4, bucket_name := "Books", category_id := none
    created := MODULE_LOAD_TIME, updated := MODULE_LOAD_TIME
    user_id := some 9, description := "Read more" }

/-- A concrete activity in `sampleBucket`, owned by `sampleUser`. -/
def sampleActivity : Activity :=
  { id := 7, description := some "Visit Rome", bucket_id := some 3
    user_id := some 2, created := MODULE_LOAD_TIME, updated := MODULE_LOAD_TIME }

/-- A concrete activity in `otherBucket`, owned by `otherUser`. -/
def otherActivity : Activity :=
  { id := 8, description := some "Read Dune", bucket_id := some 4
    user_id := some 9, created := MODULE_LOAD_TIME, updated := MODULE_LOAD_TIME }

/-- A concrete database holding the sample rows. -/
def sampleState : DBState :=
  { users := [sampleUser, otherUser]
    buckets := [sampleBucket, otherBucket]
    categories := []
    activities := [sampleActivity, otherActivity]
    nextUserId := 10, nextBucketId := 5, nextCategoryId := 1, nextActivityId := 9 }

/-- A concrete database holding a single activity row. -/
def singleActivityState : DBState :=
  { DBState.empty with activities := [sampleActivity] }

/-! ## Theorems -/

/-- C1: after assigning plaintext `p` to the user's `password` attribute,
`check_password p` is true, `check_password p'` is false for any
`p' ≠ p`, and the stored `_password` column never equals `p` as plain
text. -/
theorem password_roundtrip (u : User) (salt : Nat) (p p' : String)
    (h : p' ≠ p) :
    (u.setPassword salt p).check_password p = true ∧
    (u.setPassword salt p).check_password p' = false ∧
    (u.setPassword salt p)._password ≠ Credential.plaintext p := by
  refine ⟨?_, ?_, ?_⟩ <;>
    simp [User.setPassword, User.check_password, User.password,
      generate_password_hash, check_password_hash]
  exact fun hpq => h hpq.symm

/-- Witness for C1 at a concrete user and passwords. -/
theorem password_roundtrip_witness :
    ("pw2" : String) ≠ "pw1" ∧
    ((sampleUser.setPassword 5 "pw1").check_password "pw1" = true ∧
     (sampleUser.setPassword 5 "pw1").check_password "pw2" = false ∧
     (sampleUser.setPassword 5 "pw1")._password ≠ Credential.plaintext "pw1") :=
  ⟨by decide, password_roundtrip sampleUser 5 "pw1" "pw2" (by decide)⟩

/-- C4: `User.exists` is true iff a user row with the given email is
present (hence false before any such user exists), and immediately after
a user with email `u.email` is persisted via `save`, `User.exists` on
that email is true. -/
theorem user_exists_iff_present_and_after_save (s : DBState) (u : User)
    (e : String) :
    (User.exists_ s e = true ↔ ∃ v ∈ s.users, v.email = e) ∧
    User.exists_ (User.save u s).fst u.email = true := by
  constructor
  · unfold User.exists_
    cases hf : s.users.find? (fun v => v.email == e) with
    | none =>
      simp only [List.find?_eq_none] at hf
      apply iff_of_false (by simp)
      rintro ⟨v, hv, hve⟩
      exact hf v hv (by simp [hve])
    | some v =>
      have hve := List.find?_some hf
      have hmem := List.mem_of_find?_eq_some hf
      simp only [true_iff]
      exact ⟨v, hmem, by simpa using hve⟩
  · unfold User.exists_ User.save
    simp only [List.find?_append]
    cases hf : s.users.find? (fun v => v.email == u.email) with
    | none => simp [List.find?_cons]
    | some v => simp

/-- C5: for a store holding exactly one activity row,
`Activity.exists(bucket_id, user_id, activity_id)` is true precisely
when all three arguments simultaneously match the row's `bucket_id`,
`user_id` and `id` — so it is false whenever any one of the three keys
mismatches, for every combination of mismatches. -/
theorem activity_exists_triple_scoped (s : DBState) (a : Activity)
    (b u i : Nat) (h : s.activities = [a]) :
    Activity.exists_ s b u i = true ↔
      (a.bucket_id = some b ∧ a.user_id = some u ∧ a.id = i) := by
  unfold Activity.exists_
  rw [h]
  simp [List.find?_cons]
  cases hb : a.bucket_id == some b <;>
    cases hu : a.user_id == some u <;>
      cases hi : a.id == i <;>
        simp_all [beq_iff_eq]

/-- Witness for C5 on the single-row store. -/
theorem activity_exists_triple_scoped_witness :
    singleActivityState.activities = [sampleActivity] ∧
    (Activity.exists_ singleActivityState 3 2 7 = true ↔
      (sampleActivity.bucket_id = some 3 ∧ sampleActivity.user_id = some 2 ∧
       sampleActivity.id = 7)) :=
  ⟨rfl, activity_exists_triple_scoped singleActivityState sampleActivity 3 2 7 rfl⟩

/-- C6: `drop_all` deletes every user row when the bulk delete commits,
leaving all other tables unchanged; when the backing store raises, the
whole operation is rolled back (the state is exactly the pre-call state)
and the error is swallowed — `drop_all` is a total function into plain
states and never propagates the failure. -/
theorem drop_all_all_or_nothing (s : DBState) :
    ((User.drop_all s false).users = [] ∧
     (User.drop_all s false).buckets = s.buckets ∧
     (User.drop_all s false).categories = s.categories ∧
     (User.drop_all s false).activities = s.activities) ∧
    User.drop_all s true = s := by
  refine ⟨⟨?_, ?_, ?_, ?_⟩, ?_⟩ <;> rfl

/-- C9: the `date_joined` default was evaluated once, at module import
(`default=datetime.datetime.now()` calls `now()` when the class body
runs), so any two users constructed at any two wall-clock times receive
the identical `date_joined` value, the module-load timestamp — not their
respective creation times. -/
theorem date_joined_shared_constant (t1 t2 : Nat) (e1 e2 : String)
    (salt1 salt2 : Nat) (p1 p2 : String) :
    (User.newAt t1 e1 salt1 p1).date_joined =
      (User.newAt t2 e2 salt2 p2).date_joined ∧
    (User.newAt t1 e1 salt1 p1).date_joined = MODULE_LOAD_TIME := by
  exact ⟨rfl, rfl⟩

/-- C2: for a stored user `U`, verifying a token freshly produced by
`U.generate_token` yields a user whose id equals `U.id`; once the
configured expiry has elapsed, `verify_token` yields `None`; and a token
whose signature does not match the payload yields `None`. -/
theorem token_roundtrip (secret now now2 : Nat) (s : DBState) (U : User)
    (t : Token) (hU : U ∈ s.users)
    (hexp : now + DEFAULT_EXPIRES_IN < now2)
    (htamper : t.sig ≠ mac secret t.payloadId t.exp) :
    (∃ v, User.verify_token secret now s (User.generate_token secret now U)
        = some v ∧ v.id = U.id) ∧
    User.verify_token secret now2 s (User.generate_token secret now U) = none ∧
    User.verify_token secret now s t = none := by
  refine ⟨?_, ?_, ?_⟩
  · have hnlt : ¬ (now + DEFAULT_EXPIRES_IN < now) := by omega
    have hsome : (s.users.find? (fun u => u.id == U.id)).isSome = true :=
      List.find?_isSome.mpr ⟨U, hU, by simp⟩
    obtain ⟨v, hv⟩ := Option.isSome_iff_exists.mp hsome
    refine ⟨v, ?_, by simpa using List.find?_some hv⟩
    simp [User.verify_token, User.generate_token, hnlt, hv]
  · simp [User.verify_token, User.generate_token, hexp]
  · simp [User.verify_token, htamper]

/-- Witness for C2 at a concrete store, user and tampered token. -/
theorem token_roundtrip_witness :
    sampleUser ∈ sampleState.users ∧
    0 + DEFAULT_EXPIRES_IN < 3601 ∧
    (Token.mk 1 0 0).sig ≠ mac 0 (Token.mk 1 0 0).payloadId (Token.mk 1 0 0).exp ∧
    ((∃ v, User.verify_token 0 0 sampleState
          (User.generate_token 0 0 sampleUser) = some v ∧ v.id = sampleUser.id) ∧
     User.verify_token 0 3601 sampleState
        (User.generate_token 0 0 sampleUser) = none ∧
     User.verify_token 0 0 sampleState (Token.mk 1 0 0) = none) :=
  ⟨by decide, by decide, by decide,
   token_roundtrip 0 0 3601 sampleState sampleUser (Token.mk 1 0 0)
     (by decide) (by decide) (by decide)⟩

/-- C3: when no category named `n` is stored, `Category.exists` creates
and persists exactly one new row named `n` (the other tables untouched)
and returns it; calling `Category.exists` again on the resulting store
is a pure lookup returning that same row, with no duplicate created. -/
theorem category_exists_get_or_create (s : DBState) (n : String)
    (hno : s.categories.find? (fun c => c.category_name == n) = none)
    (hfresh : ∀ c ∈ s.categories, c.id < s.nextCategoryId) :
    ∃ row : Category,
      row.category_name = n ∧
      Category.exists_ s n =
        ({ s with categories := s.categories ++ [row]
                  nextCategoryId := s.nextCategoryId + 1 }, some row) ∧
      (s.categories ++ [row]).countP (fun c => c.category_name == n) = 1 ∧
      Category.exists_ { s with categories := s.categories ++ [row]
                                nextCategoryId := s.nextCategoryId + 1 } n =
        ({ s with categories := s.categories ++ [row]
                  nextCategoryId := s.nextCategoryId + 1 }, some row) := by
  refine ⟨{ id := s.nextCategoryId, category_name := n }, rfl, ?_, ?_, ?_⟩
  · have hid : s.categories.find? (fun d => d.id == s.nextCategoryId) = none := by
      rw [List.find?_eq_none]
      intro c hc
      simp only [beq_iff_eq]
      exact Nat.ne_of_lt (hfresh c hc)
    unfold Category.exists_
    rw [hno]
    unfold Category.save
    simp [List.find?_append, hid, List.find?_cons]
  · have hzero : s.categories.countP (fun c => c.category_name == n) = 0 :=
      List.countP_eq_zero.mpr (List.find?_eq_none.mp hno)
    simp [List.countP_append, hzero, List.countP_cons]
  · unfold Category.exists_
    rw [List.find?_append, hno]
    simp [List.find?_cons]

/-- Witness for C3 on the empty store. -/
theorem category_exists_get_or_create_witness :
    DBState.empty.categories.find?
      (fun c => c.category_name == "Travel") = none ∧
    (∀ c ∈ DBState.empty.categories, c.id < DBState.empty.nextCategoryId) ∧
    (∃ row : Category,
      row.category_name = "Travel" ∧
      Category.exists_ DBState.empty "Travel" =
        ({ DBState.empty with
            categories := DBState.empty.categories ++ [row]
            nextCategoryId := DBState.empty.nextCategoryId + 1 }, some row) ∧
      (DBState.empty.categories ++ [row]).countP
        (fun c => c.category_name == "Travel") = 1 ∧
      Category.exists_
        { DBState.empty with
            categories := DBState.empty.categories ++ [row]
            nextCategoryId := DBState.empty.nextCategoryId + 1 } "Travel" =
        ({ DBState.empty with
            categories := DBState.empty.categories ++ [row]
            nextCategoryId := DBState.empty.nextCategoryId + 1 }, some row)) :=
  ⟨by decide, by decide,
   category_exists_get_or_create DBState.empty "Travel" (by decide) (by decide)⟩

/-- C7: deleting a user by email removes that user together with exactly
the buckets and activities whose `user_id` is that user's id; rows owned
by other users, the category table and the id counters are unchanged.
The hypothesis `hinv` is the data-model invariant that every activity's
bucket belongs to the activity's own user (the spec notes it is enforced
by query-scoping convention); without it the bucket-level cascade would
also take activities other users logged in the deleted user's buckets. -/
theorem user_delete_cascade_exact (s : DBState) (email : String) (u : User)
    (hfind : s.users.find? (fun v => v.email == email) = some u)
    (hinv : ∀ a ∈ s.activities, ∀ b ∈ s.buckets,
        a.bucket_id = some b.id → a.user_id = b.user_id) :
    User.delete s email =
      some { s with
        users := s.users.filter (fun v => v.id != u.id)
        buckets := s.buckets.filter (fun b => b.user_id != some u.id)
        activities := s.activities.filter (fun a => a.user_id != some u.id) } := by
  have hact : s.activities.filter
      (fun a => a.user_id != some u.id &&
        !(((s.buckets.filter (fun b => b.user_id == some u.id)).map (·.id)).any
          (fun i => a.bucket_id == some i))) =
      s.activities.filter (fun a => a.user_id != some u.id) := by
    apply List.filter_congr
    intro a ha
    cases hux : (a.user_id != some u.id) with
    | false => simp
    | true =>
      simp only [Bool.true_and]
      rw [Bool.not_eq_true', List.any_eq_false]
      intro i hi
      simp only [List.mem_map] at hi
      obtain ⟨b, hbmem, rfl⟩ := hi
      rw [List.mem_filter] at hbmem
      obtain ⟨hbs, hbu⟩ := hbmem
      simp only [beq_iff_eq]
      intro habid
      have haub := hinv a ha b hbs habid
      rw [beq_iff_eq] at hbu
      rw [haub, hbu] at hux
      simp at hux
  unfold User.delete
  rw [hfind]
  exact congrArg some (by rw [hact])

/-- Witness for C7 at a concrete two-user store. -/
theorem user_delete_cascade_exact_witness :
    sampleState.users.find? (fun v => v.email == "a@x.com") = some sampleUser ∧
    (∀ a ∈ sampleState.activities, ∀ b ∈ sampleState.buckets,
        a.bucket_id = some b.id → a.user_id = b.user_id) ∧
    User.delete sampleState "a@x.com" =
      some { sampleState with
        users := sampleState.users.filter (fun v => v.id != sampleUser.id)
        buckets := sampleState.buckets.filter
          (fun b => b.user_id != some sampleUser.id)
        activities := sampleState.activities.filter
          (fun a => a.user_id != some sampleUser.id) } :=
  ⟨by decide, by decide,
   user_delete_cascade_exact sampleState "a@x.com" sampleUser
     (by decide) (by decide)⟩

/-- C8: whenever `Bucket.serialize` produces a mapping, its keys are
exactly `id`, `bucket_name`, `created`, `user`, `description`,
`updated` in that order; the `user` entry is the owning user's email
string, not the numeric id; and no `category` or `activities` entry is
present. -/
theorem bucket_serialize_fields (s : DBState) (b : Bucket)
    (m : List (String × Value)) (h : Bucket.serialize s b = some m) :
    m.map Prod.fst =
      ["id", "bucket_name", "created", "user", "description", "updated"] ∧
    (∃ owner, s.users.find? (fun u => some u.id == b.user_id) = some owner ∧
        m.lookup "user" = some (Value.str owner.email)) ∧
    m.lookup "category" = none ∧
    m.lookup "activities" = none := by
  unfold Bucket.serialize at h
  cases hf : s.users.find? (fun u => some u.id == b.user_id) with
  | none => rw [hf] at h; cases h
  | some owner =>
    rw [hf] at h
    injection h with h
    subst h
    exact ⟨rfl, ⟨owner, rfl, rfl⟩, rfl, rfl⟩

/-- Witness for C8 at a concrete bucket whose owner is stored. -/
theorem bucket_serialize_fields_witness :
    Bucket.serialize sampleState sampleBucket = some
      [("id", Value.nat 3), ("bucket_name", Value.str "Travel"),
       ("created", Value.time MODULE_LOAD_TIME),
       ("user", Value.str "a@x.com"),
       ("description", Value.str "See the world"),
       ("updated", Value.time MODULE_LOAD_TIME)] ∧
    ([("id", Value.nat 3), ("bucket_name", Value.str "Travel"),
      ("created", Value.time MODULE_LOAD_TIME),
      ("user", Value.str "a@x.com"),
      ("description", Value.str "See the world"),
      ("updated", Value.time MODULE_LOAD_TIME)].map Prod.fst =
        ["id", "bucket_name", "created", "user", "description", "updated"] ∧
     (∃ owner, sampleState.users.find?
          (fun u => some u.id == sampleBucket.user_id) = some owner ∧
        [("id", Value.nat 3), ("bucket_name", Value.str "Travel"),
         ("created", Value.time MODULE_LOAD_TIME),
         ("user", Value.str "a@x.com"),
         ("description", Value.str "See the world"),
         ("updated", Value.time MODULE_LOAD_TIME)].lookup "user" =
          some (Value.str owner.email)) ∧
     [("id", Value.nat 3), ("bucket_name", Value.str "Travel"),
      ("created", Value.time MODULE_LOAD_TIME),
      ("user", Value.str "a@x.com"),
      ("description", Value.str "See the world"),
      ("updated", Value.time MODULE_LOAD_TIME)].lookup "category" = none ∧
     [("id", Value.nat 3), ("bucket_name", Value.str "Travel"),
      ("created", Value.time MODULE_LOAD_TIME),
      ("user", Value.str "a@x.com"),
      ("description", Value.str "See the world"),
      ("updated", Value.time MODULE_LOAD_TIME)].lookup "activities" = none) :=
  ⟨by decide,
   bucket_serialize_fields sampleState sampleBucket
     [("id", Value.nat 3), ("bucket_name", Value.str "Travel"),
      ("created", Value.time MODULE_LOAD_TIME),
      ("user", Value.str "a@x.com"),
      ("description", Value.str "See the world"),
      ("updated", Value.time MODULE_LOAD_TIME)] (by decide)⟩

/-- C10: `User.get_id` reads the attribute `user_id`, which the `User`
class never defines, so it always raises `AttributeError` instead of
returning the user's id; likewise `Bucket.get_id` reads the nonexistent
attribute `bucket_id` and always fails. -/
theorem get_id_attribute_error :
    User.get_id = Except.error "AttributeError: user_id" ∧
    Bucket.get_id = Except.error "AttributeError: bucket_id" := by
  constructor <;> rfl

end BucketList
